import Mathlib

/-!
Shallow embedding of the myTinyRpc server lifecycle registry
(src/server/server.go, src/unnamed/part_000, src/unnamed/part_001).

The Go code is a registry of named services with three operations:
AddService, Service (lookup), Register (fan-out), and a shutdown
coordinator Close / tryClose guarded by a sync.Once.

Modelling decisions, all traceable to the source:
  * time.Duration is embedded as Int (nanoseconds); the package constant
    MaxCloseWaitTime = 10 * time.Second becomes 10 * timeSecond.
  * The Go map[string]Service is embedded as an insertion-ordered
    association list with in-place replacement on an existing key, wrapped
    in Option to model the nil map (AddService lazily allocates it).
  * interface values passed to Register are embedded as GoValue; the Go
    type assertion serviceDesc.(*ServiceDesc) succeeds exactly on the
    GoValue.desc constructor.
  * A Service (the interface of part_000/part_001) is embedded by its
    observable behaviour: its Register method as a function returning
    an optional error, its Close method by the optional error it returns
    (closeErr) and the time at which it signals on the completion channel
    it is given (closeSignalTime, none meaning it never signals).
  * Channels of struct{} used purely as signals are embedded by their
    state: closeCh is Option ChanState (none = nil channel); closing an
    already closed channel is a Go runtime panic, recorded as
    CloseOutcome.panicked.
  * sync.Once is embedded as the Boolean closeOnceDone; Do runs the body
    exactly when the flag is still false.
  * The fan-out loops return ghost traces (which services were invoked,
    in iteration order, and what they returned) so that statements such
    as "this entry receives no call" are expressible; a call is recorded
    exactly where the Go loop performs the corresponding method call.
  * The select between the per-service completion channel and the shared
    context deadline finishes at min(signal time, deadline); the
    WaitGroup barrier finishes when the slowest spawned goroutine does,
    that is at the max over the spawned per-entry waits.
-/

namespace TinyRpc

/-- Go error values live behind the error interface; the code only ever
creates them with errors.New, so a String models them. -/
abbrev GoErr := String

/-- Go time.Duration, an Int64 count of nanoseconds. -/
abbrev Duration := Int

/-- Go time.Second in nanoseconds. -/
def timeSecond : Duration := 1000000000

/-- Package constant from part_000: const MaxCloseWaitTime = 10 * time.Second. -/
def MaxCloseWaitTime : Duration := 10 * timeSecond

/-- ServiceDesc from part_000: struct \x7b ServiceName string \x7d. -/
structure ServiceDesc where
  ServiceName : String
  deriving Repr, DecidableEq

/-- The serviceImpl interface value is passed through uninspected; a Nat
stands for it. -/
abbrev Impl := Nat

/-- A Go interface value handed to Server.Register as serviceDesc: either
an actual *ServiceDesc or a value of any other dynamic type. -/
inductive GoValue where
  | desc (d : ServiceDesc)
  | other (tag : String)

/-- Behavioural embedding of the Service interface of part_000/part_001.
sid is an identity tag distinguishing entry values; Register is the Register
method; closeErr is what the Close method returns; closeSignalTime is the
time (from the start of the shutdown pass) at which the entry signals on the
completion channel given to Close, none meaning it never signals; serveErr
is what Serve would return (never invoked by the registry). -/
structure Service where
  sid : Nat
  Register : ServiceDesc → Impl → Option GoErr
  closeErr : Option GoErr
  closeSignalTime : Option Duration
  serveErr : Option GoErr

/-- State of a Go channel used as a close-broadcast signal. -/
inductive ChanState where
  | chanOpen
  | chanClosed
  deriving Repr, DecidableEq

/-- The Server struct of server.go: MaxCloseWaitTime, the services map
(Option models the nil map), failedServices (a sync.Map used as a set of
names), closeCh (none = nil channel) and closeOnce (its done flag).
The mutex field has no behavioural content in the embedded operations. -/
structure Server where
  MaxCloseWaitTime : Duration
  services : Option (List (String × Service))
  failedServices : List String
  closeCh : Option ChanState
  closeOnceDone : Bool

/-- Go map assignment m[k] = v on the association list: replaces the value
in place when the key is present, appends otherwise. -/
def mapInsert : List (String × Service) → String → Service → List (String × Service)
  | [], k, v => [(k, v)]
  | (k0, v0) :: rest, k, v =>
    if k0 = k then (k, v) :: rest else (k0, v0) :: mapInsert rest k v

/-- Go map read m[k]: some v when present, none otherwise (Go yields the
zero value nil, which Service returns unchanged). -/
def mapLoad : List (String × Service) → String → Option Service
  | [], _ => none
  | (k0, v0) :: rest, k => if k0 = k then some v0 else mapLoad rest k

/-- Server.AddService: allocate the map when nil, then insert. -/
def Server.AddService (s : Server) (serviceName : String) (service : Service) : Server :=
  match s.services with
  | none => { s with services := some [(serviceName, service)] }
  | some m => { s with services := some (mapInsert m serviceName service) }

/-- Server.Service: nil map means nil result; otherwise map lookup. -/
def Server.Service (s : Server) (serviceName : String) : Option Service :=
  match s.services with
  | none => none
  | some m => mapLoad m serviceName

/-- Ghost record of one srv.Register invocation during the broadcast: the
name it is registered under, the identity of the entry, and the error the
call returned (none = nil). -/
structure RegisterCall where
  name : String
  sid : Nat
  result : Option GoErr
  deriving Repr, DecidableEq

/-- The loop body of Server.Register: visit the entries in iteration order,
invoke srv.Register, return the first error and stop there. The second
component is the ghost trace of invocations actually made. -/
def registerLoop : List (String × Service) → ServiceDesc → Impl →
    Option GoErr × List RegisterCall
  | [], _, _ => (none, [])
  | (name, srv) :: rest, d, impl =>
    match srv.Register d impl with
    | some err => (some err, [⟨name, srv.sid, some err⟩])
    | none =>
      let p := registerLoop rest d impl
      (p.1, ⟨name, srv.sid, none⟩ :: p.2)

/-- Server.Register: the type assertion serviceDesc.(*ServiceDesc) fails
with the error "service desc type invalid" before any entry is visited;
otherwise the broadcast loop runs over the map (ranging over a nil map
performs zero iterations). -/
def Server.Register (s : Server) (serviceDesc : GoValue) (serviceImpl : Impl) :
    Option GoErr × List RegisterCall :=
  match serviceDesc with
  | GoValue.other _ => (some "service desc type invalid", [])
  | GoValue.desc d =>
    match s.services with
    | none => (none, [])
    | some m => registerLoop m d serviceImpl

/-- Local variable closeWaitTime of tryClose: the configured value floored
at the package constant. -/
def Server.closeWaitTime (s : Server) : Duration :=
  if s.MaxCloseWaitTime < TinyRpc.MaxCloseWaitTime then TinyRpc.MaxCloseWaitTime
  else s.MaxCloseWaitTime

/-- Completion time of the select between the per-service completion
channel and the shared context deadline: the signal arrives at time t and
wins when t is before the deadline, otherwise ctx.Done fires at the
deadline; an entry that never signals waits the full deadline. -/
def entryWait (deadline : Duration) (srv : Service) : Duration :=
  match srv.closeSignalTime with
  | none => deadline
  | some t => min t deadline

/-- Ghost trace of one execution of the shutdown body: which entries had
their Close method invoked (name and identity, in iteration order), which
names were skipped as failed, and the time at which the WaitGroup barrier
released (the max over spawned per-entry waits, 0 when nothing spawned). -/
structure ShutdownTrace where
  closedCalls : List (String × Nat)
  skippedNames : List String
  duration : Duration
  deriving Repr, DecidableEq

/-- The fan-out loop of the shutdown body: skip names present in
failedServices, otherwise spawn a goroutine that invokes srv.Close (whose
returned error is discarded by the empty if-body in the source) and race
its completion signal against the shared deadline. -/
def shutdownFanout : List (String × Service) → List String → Duration → ShutdownTrace
  | [], _, _ => ⟨[], [], 0⟩
  | (name, srv) :: rest, failed, deadline =>
    let t := shutdownFanout rest failed deadline
    if name ∈ failed then
      ⟨t.closedCalls, name :: t.skippedNames, t.duration⟩
    else
      ⟨(name, srv.sid) :: t.closedCalls, t.skippedNames,
        max (entryWait deadline srv) t.duration⟩

/-- The closure fn inside tryClose: compute the floored wait, set the
shared deadline, fan out over the services map (nil map = no iterations),
wait on the barrier. -/
def Server.tryCloseBody (s : Server) : ShutdownTrace :=
  shutdownFanout (s.services.getD []) s.failedServices s.closeWaitTime

/-- Server.tryClose: s.closeOnce.Do(fn) runs the body exactly when the
once has not fired yet; the ghost result reports whether it ran and with
what trace. -/
def Server.tryClose (s : Server) : Server × Option ShutdownTrace :=
  if s.closeOnceDone then (s, none)
  else ({ s with closeOnceDone := true }, some s.tryCloseBody)

/-- How one call to Server.Close ends: a normal return (the function
returns the nil error) or a runtime panic from close of a closed channel. -/
inductive CloseOutcome where
  | retNil
  | panicked
  deriving Repr, DecidableEq

/-- Ghost result of one call to Server.Close: the state it leaves behind,
how it ended, whether this call executed the shutdown body, the trace of
that body when it did, and whether an acknowledgment was sent on the
caller-supplied channel. -/
structure CloseResult where
  state : Server
  outcome : CloseOutcome
  bodyRan : Bool
  trace : Option ShutdownTrace
  acked : Bool

/-- Server.Close: first, if closeCh is non-nil, close(closeCh) — closing
an already closed channel panics at once; then tryClose; then, when the
caller supplied a channel, send the acknowledgment (the caller is its
receiver); finally return nil. chProvided models ch != nil. -/
def Server.Close (s : Server) (chProvided : Bool) : CloseResult :=
  match s.closeCh with
  | some ChanState.chanClosed =>
    { state := s, outcome := CloseOutcome.panicked, bodyRan := false,
      trace := none, acked := false }
  | some ChanState.chanOpen =>
    let s1 : Server := { s with closeCh := some ChanState.chanClosed }
    let p := s1.tryClose
    { state := p.1, outcome := CloseOutcome.retNil, bodyRan := p.2.isSome,
      trace := p.2, acked := chProvided }
  | none =>
    let p := s.tryClose
    { state := p.1, outcome := CloseOutcome.retNil, bodyRan := p.2.isSome,
      trace := p.2, acked := chProvided }

/-- A sequence of Close calls against the registry (each Bool says whether
that caller supplied an acknowledgment channel); returns the final state
and how many of the calls executed the shutdown body. -/
def runCloses : Server → List Bool → Server × Nat
  | s, [] => (s, 0)
  | s, ch :: rest =>
    let r := s.Close ch
    let p := runCloses r.state rest
    (p.1, (if r.bodyRan then 1 else 0) + p.2)

/-! Concrete fixtures used in witnesses and counterexample evaluations. -/

/-- A service whose Register always succeeds, identity 10. -/
def svcOkA : Service := ⟨10, fun _ _ => none, none, some 0, none⟩

/-- A service whose Register fails with "regfail", identity 11. -/
def svcBad : Service := ⟨11, fun _ _ => some "regfail", none, some 0, none⟩

/-- A service whose Register always succeeds, identity 12. -/
def svcOkC : Service := ⟨12, fun _ _ => none, none, some 0, none⟩

/-- A service whose Close returns an error and that never signals
completion, identity 1. -/
def svcBoom : Service := ⟨1, fun _ _ => none, some "boom", none, none⟩

/-- A registry holding three services of which the middle one fails
registration. -/
def serverABC : Server :=
  { MaxCloseWaitTime := 0, services := some [("a", svcOkA), ("b", svcBad), ("c", svcOkC)],
    failedServices := [], closeCh := none, closeOnceDone := false }

/-- A registry with an initialized (open) close-broadcast channel and one
service whose Close errors and never signals. -/
def serverBoom : Server :=
  { MaxCloseWaitTime := 0, services := some [("svc", svcBoom)],
    failedServices := [], closeCh := some ChanState.chanOpen, closeOnceDone := false }

/-- A freshly constructed registry: zero value of the struct, services map
nil, close channel initialized and open. -/
def serverFreshCh : Server :=
  { MaxCloseWaitTime := 0, services := none,
    failedServices := [], closeCh := some ChanState.chanOpen, closeOnceDone := false }

/-- A freshly constructed zero-value registry: services map nil, close
channel nil. -/
def serverZero : Server :=
  { MaxCloseWaitTime := 0, services := none,
    failedServices := [], closeCh := none, closeOnceDone := false }

/-! Helper lemmas. -/

/-- Inserting twice under the same key is the same as inserting the second
value once: the first value vanishes from the list entirely. -/
theorem mapInsert_mapInsert_same (m : List (String × Service)) (k : String)
    (v1 v2 : Service) : mapInsert (mapInsert m k v1) k v2 = mapInsert m k v2 := by
  induction m with
  | nil => simp [mapInsert]
  | cons e rest ih =>
    by_cases h : e.1 = k
    · simp [mapInsert, h]
    · simp [mapInsert, h, ih]

/-- Reading back the key just inserted yields the inserted value. -/
theorem mapLoad_mapInsert_same (m : List (String × Service)) (k : String)
    (v : Service) : mapLoad (mapInsert m k v) k = some v := by
  induction m with
  | nil => simp [mapInsert, mapLoad]
  | cons e rest ih =>
    by_cases h : e.1 = k
    · simp [mapInsert, h, mapLoad]
    · simp [mapInsert, h, mapLoad, ih]

/-- The registration loop on a list whose prefix all registers cleanly and
whose next entry fails: the failing error is returned as is, the trace
holds exactly the clean prefix followed by the failing call, and nothing
after the failing entry is invoked. -/
theorem registerLoop_fail_fast (pre post : List (String × Service)) (name : String)
    (bad : Service) (d : ServiceDesc) (impl : Impl) (err : GoErr)
    (hpre : pre.all (fun e => (e.2.Register d impl).isNone) = true)
    (hbad : bad.Register d impl = some err) :
    registerLoop (pre ++ (name, bad) :: post) d impl =
      (some err, pre.map (fun e => (⟨e.1, e.2.sid, none⟩ : RegisterCall)) ++
        [⟨name, bad.sid, some err⟩]) := by
  induction pre with
  | nil => simp [registerLoop, hbad]
  | cons e rest ih =>
    rw [List.all_cons, Bool.and_eq_true] at hpre
    obtain ⟨h1, h2⟩ := hpre
    have hnone : e.2.Register d impl = none := Option.isNone_iff_eq_none.mp h1
    simp [registerLoop, hnone, ih h2]

/-- The fan-out calls Close on exactly the entries whose name is not in
the failed set, in iteration order. -/
theorem shutdownFanout_closedCalls (entries : List (String × Service))
    (failed : List String) (deadline : Duration) :
    (shutdownFanout entries failed deadline).closedCalls =
      (entries.filter (fun e => !decide (e.1 ∈ failed))).map (fun e => (e.1, e.2.sid)) := by
  induction entries with
  | nil => rfl
  | cons e rest ih =>
    by_cases h : e.1 ∈ failed <;>
      simp [shutdownFanout, h, ih, List.filter_cons]

/-- The barrier release time of the fan-out never exceeds the shared
deadline, whatever each entry does, provided the deadline is nonnegative. -/
theorem shutdownFanout_duration_le (entries : List (String × Service))
    (failed : List String) (deadline : Duration) (h0 : 0 ≤ deadline) :
    (shutdownFanout entries failed deadline).duration ≤ deadline := by
  induction entries with
  | nil => exact h0
  | cons e rest ih =>
    by_cases h : e.1 ∈ failed
    · simpa [shutdownFanout, h] using ih
    · simp only [shutdownFanout, h, if_false]
      refine max_le ?_ ih
      unfold entryWait
      cases e.2.closeSignalTime with
      | none => exact le_refl _
      | some t => exact min_le_right _ _

/-- The floored wait is at least the package floor. -/
theorem closeWaitTime_ge_floor (s : Server) :
    TinyRpc.MaxCloseWaitTime ≤ s.closeWaitTime := by
  unfold Server.closeWaitTime
  by_cases h : s.MaxCloseWaitTime < TinyRpc.MaxCloseWaitTime
  · simp [h]
  · simp [h, le_of_not_lt h]

/-- A Close call on a registry whose once has already fired does not run
the body and leaves the flag set. -/
theorem Close_after_once (s : Server) (ch : Bool) (h : s.closeOnceDone = true) :
    (s.Close ch).bodyRan = false ∧ (s.Close ch).state.closeOnceDone = true := by
  unfold Server.Close
  cases hc : s.closeCh with
  | none => simp [Server.tryClose, h]
  | some cs => cases cs <;> simp [Server.tryClose, h]

/-- A Close call that ran the body leaves the once flag set. -/
theorem Close_bodyRan_sets_once (s : Server) (ch : Bool) :
    (s.Close ch).bodyRan = true → (s.Close ch).state.closeOnceDone = true := by
  unfold Server.Close
  cases hc : s.closeCh with
  | none => by_cases h : s.closeOnceDone <;> simp [Server.tryClose, h]
  | some cs => cases cs <;> by_cases h : s.closeOnceDone <;> simp [Server.tryClose, h]

/-- Once the flag is set, no later sequence of Close calls ever executes
the body again. -/
theorem runCloses_count_zero (calls : List Bool) (s : Server)
    (h : s.closeOnceDone = true) : (runCloses s calls).2 = 0 := by
  induction calls generalizing s with
  | nil => rfl
  | cons ch rest ih =>
    obtain ⟨h1, h2⟩ := Close_after_once s ch h
    simp [runCloses, h1, ih _ h2]

/-! Claim theorems. -/

/-- C1: across any sequence of Close calls against a registry, the
shutdown body (the once-guarded fan-out closure of tryClose) executes at
most once; later Close calls never run it again. The sequential model
covers every interleaving order of callers, and sync.Once serializes the
concurrent case to exactly such an order. -/
theorem close_body_at_most_once (s : Server) (calls : List Bool) :
    (runCloses s calls).2 ≤ 1 := by
  induction calls generalizing s with
  | nil => simp [runCloses]
  | cons ch rest ih =>
    by_cases hb : (s.Close ch).bodyRan
    · have honce := Close_bodyRan_sets_once s ch hb
      simp [runCloses, hb, runCloses_count_zero rest _ honce]
    · simp only [runCloses]
      simpa [hb] using ih (s.Close ch).state

/-- C4: Server.Register with a value that is not a *ServiceDesc returns
the error "service desc type invalid" and its call trace is empty — no
entry receives a Register call, the broadcast is aborted before fan-out. -/
theorem register_invalid_desc_aborts (s : Server) (tag : String) (impl : Impl) :
    s.Register (GoValue.other tag) impl = (some "service desc type invalid", []) := rfl

/-- C6: the wait used by the shutdown body equals
max(configured MaxCloseWaitTime, package floor MaxCloseWaitTime of
10 seconds); in particular it is never below the floor and equals the
configured value whenever that value is at least the floor. -/
theorem closeWaitTime_eq_max (s : Server) :
    s.closeWaitTime = max s.MaxCloseWaitTime TinyRpc.MaxCloseWaitTime := by
  unfold Server.closeWaitTime
  by_cases h : s.MaxCloseWaitTime < TinyRpc.MaxCloseWaitTime
  · simp [h, max_eq_right (le_of_lt h)]
  · simp [h, max_eq_left (le_of_not_lt h)]

/-- C7: in a shutdown pass, the entries whose Close is invoked are exactly
those whose name is not in the failed-services set: every entry with a
failed name is excluded from the fan-out and every other entry is
included, in iteration order. -/
theorem shutdown_skips_failed (s : Server) :
    s.tryCloseBody.closedCalls =
      ((s.services.getD []).filter (fun e => !decide (e.1 ∈ s.failedServices))).map
        (fun e => (e.1, e.2.sid)) := by
  unfold Server.tryCloseBody
  exact shutdownFanout_closedCalls _ _ _

/-- C9: the barrier of the shutdown body releases no later than the shared
deadline max(configured wait, floor), whatever each entry does — including
entries that never signal completion — because each per-entry wait races
against the single shared deadline. The model abstracts scheduling noise
to zero. -/
theorem shutdown_duration_bounded (s : Server) :
    s.tryCloseBody.duration ≤ s.closeWaitTime := by
  have h0 : (0 : Duration) ≤ s.closeWaitTime :=
    le_trans (by decide) (closeWaitTime_ge_floor s)
  exact shutdownFanout_duration_le _ _ _ h0

/-- C10: on a registry whose services map was never initialized, lookup
returns nil for every name and Register with a valid descriptor returns
nil having invoked no entry — both operations are total on the empty
registry. -/
theorem fresh_registry_total (s : Server) (name : String) (d : ServiceDesc)
    (impl : Impl) (h : s.services = none) :
    s.Service name = none ∧ s.Register (GoValue.desc d) impl = (none, []) := by
  constructor
  · simp [Server.Service, h]
  · simp [Server.Register, h]

/-- Witness: the zero-value registry satisfies the hypotheses and the
conclusion of fresh_registry_total at concrete arguments. -/
theorem fresh_registry_total_witness :
    serverZero.services = none ∧
    (serverZero.Service "x" = none ∧
      serverZero.Register (GoValue.desc ⟨"d"⟩) 0 = (none, [])) :=
  ⟨rfl, fresh_registry_total serverZero "x" ⟨"d"⟩ 0 rfl⟩

/-- C5: during the Register broadcast, the first entry whose Register call
fails aborts the broadcast: the returned error is that error verbatim, the
call trace is exactly the clean prefix (already registered, not rolled
back) followed by the failing call, and the entries after the failing one
receive no Register call. -/
theorem register_fail_fast (s : Server) (pre post : List (String × Service))
    (name : String) (bad : Service) (d : ServiceDesc) (impl : Impl) (err : GoErr)
    (hs : s.services = some (pre ++ (name, bad) :: post))
    (hpre : pre.all (fun e => (e.2.Register d impl).isNone) = true)
    (hbad : bad.Register d impl = some err) :
    s.Register (GoValue.desc d) impl =
      (some err, pre.map (fun e => (⟨e.1, e.2.sid, none⟩ : RegisterCall)) ++
        [⟨name, bad.sid, some err⟩]) := by
  simp only [Server.Register, hs]
  exact registerLoop_fail_fast pre post name bad d impl err hpre hbad

/-- Witness: register_fail_fast applied to a registry with three entries
whose second fails registration; the third is absent from the trace. -/
theorem register_fail_fast_witness :
    serverABC.services = some ([("a", svcOkA)] ++ ("b", svcBad) :: [("c", svcOkC)]) ∧
    [("a", svcOkA)].all (fun e => (e.2.Register ⟨"d"⟩ 0).isNone) = true ∧
    svcBad.Register ⟨"d"⟩ 0 = some "regfail" ∧
    serverABC.Register (GoValue.desc ⟨"d"⟩) 0 =
      (some "regfail",
        [("a", svcOkA)].map (fun e => (⟨e.1, e.2.sid, none⟩ : RegisterCall)) ++
          [⟨"b", svcBad.sid, some "regfail"⟩]) :=
  ⟨rfl, rfl, rfl,
    register_fail_fast serverABC [("a", svcOkA)] [("c", svcOkC)] "b" svcBad
      ⟨"d"⟩ 0 "regfail" rfl rfl rfl⟩

/-- C8: adding two entries under the same name leaves a registry equal to
one where only the second was ever added — the first entry vanishes from
the map entirely, so exactly the second is returned by lookup and exactly
the second participates in any later registration broadcast or shutdown
pass (both are functions of the registry state). -/
theorem addService_last_write_wins (s : Server) (name : String) (e1 e2 : Service) :
    (s.AddService name e1).AddService name e2 = s.AddService name e2 ∧
    ((s.AddService name e1).AddService name e2).Service name = some e2 := by
  have h1 : (s.AddService name e1).AddService name e2 = s.AddService name e2 := by
    unfold Server.AddService
    cases hs : s.services with
    | none => simp [mapInsert]
    | some m => simp [mapInsert_mapInsert_same]
  refine ⟨h1, ?_⟩
  rw [h1]
  unfold Server.AddService Server.Service
  cases hs : s.services with
  | none => simp [mapLoad]
  | some m => simp [mapLoad_mapInsert_same]

/-- C2: evaluation of Server.Close on a registry with an initialized close
channel and one service whose Close method errors and never signals. The
first invocation returns nil and sends the acknowledgment (the entry error
is discarded by the coordinator), but a second invocation panics at
close(closeCh) instead of returning nil — the code violates the
every-invocation-returns-nil claim. -/
theorem close_second_call_panics :
    (serverBoom.Close true).outcome = CloseOutcome.retNil ∧
    (serverBoom.Close true).acked = true ∧
    ((serverBoom.Close true).state.Close true).outcome = CloseOutcome.panicked :=
  ⟨rfl, rfl, rfl⟩

/-- C3: evaluation of Server.Close on a fresh registry with an initialized
close channel. The first invocation does close the channel, but a second
invocation attempts close(closeCh) again and panics with close of closed
channel — the code does not leave the channel as-is on subsequent calls. -/
theorem closeCh_reclose_panics :
    (serverFreshCh.Close false).state.closeCh = some ChanState.chanClosed ∧
    ((serverFreshCh.Close false).state.Close false).outcome = CloseOutcome.panicked :=
  ⟨rfl, rfl⟩

end TinyRpc
